import Mathlib

/-
Shallow embedding of the flexr feedback backend (FastAPI + SQLAlchemy + bcrypt).

Source files embedded here:
  app/crud/crud.py        : get_user, authenticate_user (with its log output),
                            get_feedback_summary, get_qa_logs,
                            get_low_similarity_queries, get_no_result_summary
  app/api/endpoints.py    : login, logout, get_current_user_info (/me),
                            get_qa_logs, get_low_similarity_queries endpoints
  app/main.py             : error_response, http_exception_handler,
                            global_exception_handler
  app/models/models.py    : the row types of the five tables

The token service (app/core/security.py: create_access_token, get_current_user)
is not part of the provided sources; those definitions are modelled from the
spec (sections 4.2 and 4.3) and are marked as such in their doc comments.

Database tables are embedded as Lean lists of row structures; SQLAlchemy
queries become the corresponding list programs.  SQL floats are embedded as
rationals.  bcrypt is a third-party library and is idealized as a perfect,
deterministic hash: a well-formed stored hash is the header followed by the
hashed password, comparison succeeds exactly on the hashed password, and a
stored value without the header makes the comparison raise (ValueError),
mirroring bcrypt's "Invalid salt" behaviour on malformed hashes.
-/

namespace FlexrFeedback

/-- Row of the `users` table (app/models/models.py, class User). -/
structure UserRow where
  id : Nat
  username : String
  password : String
  deriving Repr, DecidableEq

/-- Row of the `feedback` table (app/models/models.py, class Feedback). -/
structure FeedbackRow where
  id : Nat
  message_id : String
  liked : Bool
  reason : Option String
  deriving Repr, DecidableEq

/-- Row of the `qa_logs` table (app/models/models.py, class QALogs). -/
structure QALogRow where
  id : Nat
  task_id : String
  query : String
  response : String
  deriving Repr, DecidableEq

/-- Row of the `low_similarity_queries` table (app/models/models.py,
class LowSimilarityQueries); `similarity_score` is a SQL float, embedded
as a rational. -/
structure LowSimilarityRow where
  id : Nat
  query_type : Nat
  col : String
  query_content : String
  similarity_score : ℚ
  metric_type : String
  results : Option String
  deriving Repr, DecidableEq

/-- Row of the `no_result_logs` table (app/models/models.py, class NoResultLogs). -/
structure NoResultLogRow where
  id : Nat
  query : String
  username : String
  task_id : String
  deriving Repr, DecidableEq

/-- The relational store: one list per table. -/
structure DB where
  users : List UserRow
  feedback : List FeedbackRow
  qa_logs : List QALogRow
  low_similarity_queries : List LowSimilarityRow
  no_result_logs : List NoResultLogRow
  deriving Repr

/-- Decidable equality for `Except`, used to evaluate outcomes of the
fallible operations on concrete inputs. -/
instance {ε α : Type} [DecidableEq ε] [DecidableEq α] : DecidableEq (Except ε α) := fun x y =>
  match x, y with
  | .ok a, .ok b => if h : a = b then .isTrue (by simp [h]) else .isFalse (by simp [h])
  | .ok _, .error _ => .isFalse (by simp)
  | .error _, .ok _ => .isFalse (by simp)
  | .error e, .error f => if h : e = f then .isTrue (by simp [h]) else .isFalse (by simp [h])

/-- Embedding of Python's `str.strip()`: drop whitespace from both ends. -/
def pyStrip (s : String) : String :=
  ⟨((s.data.dropWhile Char.isWhitespace).reverse.dropWhile Char.isWhitespace).reverse⟩

/-- Header that every well-formed stored hash carries in the idealized
bcrypt model (standing for the `$algorithm$cost$salt` part of a real
bcrypt hash). -/
def bcryptHeader : String := "$2b$12$"

/-- Checks whether the first list begins with the second. -/
def listStarts {α : Type} [DecidableEq α] : List α → List α → Bool
  | _, [] => true
  | [], _ :: _ => false
  | a :: as, b :: bs => decide (a = b) && listStarts as bs

/-- Checks whether the second list occurs contiguously inside the first
argument list (the needle comes first). -/
def listSegment {α : Type} [DecidableEq α] (needle : List α) : List α → Bool
  | [] => listStarts ([] : List α) needle
  | a :: t => listStarts (a :: t) needle || listSegment needle t

/-- Checks whether `needle` occurs as a contiguous substring of `haystack`. -/
def strSegment (haystack needle : String) : Bool :=
  listSegment needle.data haystack.data

/-- Checks whether `s` begins with `h`. -/
def strStarts (s h : String) : Bool := listStarts s.data h.data

/-- Idealized model of `bcrypt.hashpw(password, salt)`: a perfect,
deterministic hash.  The salt is abstracted away (it is irrelevant to the
verified claims), so the hash is the header followed by the password itself;
this makes the hash injective, the idealization of collision resistance. -/
def bcrypt_hashpw (password _salt : String) : String :=
  bcryptHeader ++ password

/-- Error raised by the idealized bcrypt comparison (bcrypt raises
`ValueError("Invalid salt")` on a malformed stored hash). -/
inductive BcryptError where
  | invalid_salt
  deriving Repr, DecidableEq

/-- Idealized model of `bcrypt.checkpw(password, storedHash)`: raises on a
stored value that does not carry the bcrypt header, otherwise reports
whether the stored hash is exactly the hash of the supplied password. -/
def bcrypt_checkpw (password storedHash : String) : Except BcryptError Bool :=
  if strStarts storedHash bcryptHeader then
    .ok (storedHash == bcrypt_hashpw password "")
  else
    .error .invalid_salt

/-- Embedding of `crud.get_user`: first user row whose username equals the
argument exactly (SQLAlchemy `filter(User.username == username).first()`). -/
def get_user (db : DB) (username : String) : Option UserRow :=
  db.users.find? (fun u => u.username == username)

/-- Observable outcome of `crud.authenticate_user`: the returned user,
`None`, or a raised `HTTPException(status_code, detail)`. -/
inductive AuthOutcome where
  | user (u : UserRow)
  | noUser
  | httpError (status_code : Nat) (detail : String)
  deriving Repr, DecidableEq

/-- Embedding of `crud.authenticate_user`.  The code looks up the user,
returns `None` when absent, strips the stored hash and compares with
`bcrypt.checkpw`, returning `None` on mismatch and the user on match.
When the stored hash is malformed the comparison raises: the debug-log
line that calls `checkpw` sits before the inner `try`, so the `ValueError`
reaches the outer `except Exception`, which raises
`HTTPException(500, "Authentication error")` (the inner handler's
`HTTPException(500, "Error validating password")`, when reached, is also
re-wrapped by the outer handler into the same 500). -/
def authenticate_user (db : DB) (username password : String) : AuthOutcome :=
  match get_user db username with
  | none => .noUser
  | some user =>
    match bcrypt_checkpw password (pyStrip user.password) with
    | .ok true => .user user
    | .ok false => .noUser
    | .error _ => .httpError 500 "Authentication error"

/-- One entry written by the loguru logger inside `crud.authenticate_user`,
with the dynamic data each f-string interpolates. -/
inductive LogEntry where
  | warn_user_not_found (username : String)
  | debug_stored_hash (stored : String)
  | debug_password (password : String) (fresh_hash : String)
  | debug_compare (password : String) (stored_stripped : String)
  | debug_is_valid (valid : Bool)
  | warn_invalid_password (username : String)
  | error_auth (msg : String)
  deriving Repr, DecidableEq

/-- The sequence of log entries `crud.authenticate_user` emits, in source
order: the three debug lines (stored hash; plaintext password together with
a freshly computed hash of it; the compare operands), then the `Is valid`
debug line when the comparison does not raise, then the warning or error of
the taken branch.  `salt` stands for the `bcrypt.gensalt()` result used by
the debug line. -/
def authenticate_user_log (db : DB) (username password salt : String) :
    List LogEntry :=
  match get_user db username with
  | none => [.warn_user_not_found username]
  | some user =>
    let head : List LogEntry :=
      [.debug_stored_hash user.password,
       .debug_password password (bcrypt_hashpw password salt),
       .debug_compare password (pyStrip user.password)]
    match bcrypt_checkpw password (pyStrip user.password) with
    | .ok true => head ++ [.debug_is_valid true]
    | .ok false => head ++ [.debug_is_valid false, .warn_invalid_password username]
    | .error _ => head ++ [.error_auth "Authentication error"]

/-- Claims carried by a token: subject and absolute expiry instant. -/
structure TokenClaims where
  sub : String
  exp : Nat
  deriving Repr, DecidableEq

/-- Modelled from the spec: the HMAC-family signature (section 4.2) over the
claims under the server secret, idealized as an unforgeable tag determined
exactly by the secret and the signed claims. -/
def hmac_sign (secret : String) (c : TokenClaims) : String :=
  "hmac:" ++ secret ++ ":" ++ c.sub ++ ":" ++ toString c.exp

/-- A parsed signed token: claims plus signature.  The `malformed` failure
of the spec concerns strings that do not parse to this shape and is outside
this structural model. -/
structure SignedToken where
  claims : TokenClaims
  sig : String
  deriving Repr, DecidableEq

/-- Modelled from the spec: `create_access_token` of app/core/security.py
(absent from the provided sources), per section 4.2 contract A — encode the
subject and absolute expiry `now + ttl` into a signed structure under the
server secret. -/
def create_access_token (secret : String) (now : Nat) (sub : String) (ttl : Nat) :
    SignedToken :=
  { claims := { sub := sub, exp := now + ttl },
    sig := hmac_sign secret { sub := sub, exp := now + ttl } }

/-- Failure kinds of token verification (spec section 4.2 contract B). -/
inductive TokenFailure where
  | malformed
  | bad_signature
  | expired
  deriving Repr, DecidableEq

/-- Modelled from the spec: token verification of app/core/security.py
(absent from the provided sources), per section 4.2 contract B — reject a
signature that does not match the secret, reject when current time is at or
past the encoded expiry, otherwise return the decoded subject. -/
def verify_token (secret : String) (now : Nat) (t : SignedToken) :
    Except TokenFailure String :=
  if t.sig ≠ hmac_sign secret t.claims then .error .bad_signature
  else if t.claims.exp ≤ now then .error .expired
  else .ok t.claims.sub

/-- Embedding of `schemas.TokenData`: the decoded identity a protected
endpoint receives from the authentication dependency. -/
structure TokenData where
  username : String
  deriving Repr, DecidableEq

/-- Modelled from the spec: `get_current_user` of app/core/security.py
(absent from the provided sources).  Per section 4.2 the verifier returns
the decoded subject "with no other side effect", and per the section 8
scenario a deleted user with a valid token reaches the `/me` handler (404
there, not 401 here), so this dependency only verifies the token and wraps
the subject into `TokenData`; it performs no user lookup. -/
def get_current_user (secret : String) (now : Nat) (t : SignedToken) :
    Except TokenFailure TokenData :=
  (verify_token secret now t).map (fun s => { username := s })

/-- Modelled from the spec: the compact serialization of a signed token into
the `access_token` string (section 3, a signed self-contained credential). -/
def encode_jwt (t : SignedToken) : String :=
  t.claims.sub ++ "." ++ toString t.claims.exp ++ "." ++ t.sig

/-- Embedding of `main.error_response`: the uniform error envelope body,
rendered to its JSON text.  `details`, when present, is the rendered JSON
of the `details` object. -/
def error_response (status_code : Nat) (message : String)
    (details : Option String) : String :=
  "\x7b\"success\": false, \"error\": \x7b\"code\": " ++ toString status_code ++
    ", \"message\": \"" ++ message ++ "\"" ++
    (match details with
     | none => ""
     | some d => ", \"details\": " ++ d) ++ "\x7d\x7d"

/-- Embedding of `endpoints.success_response`, rendered to its JSON text:
`dataJson` is the rendered JSON of the `data` field. -/
def success_response (dataJson : String) : String :=
  "\x7b\"success\": true, \"data\": " ++ dataJson ++ "\x7d"

/-- A raised `fastapi.HTTPException`, as status code and detail string. -/
structure HTTPExceptionModel where
  status_code : Nat
  detail : String
  deriving Repr, DecidableEq

/-- An HTTP response: status code and rendered JSON body. -/
structure HttpResponse where
  status_code : Nat
  body : String
  deriving Repr, DecidableEq

/-- Embedding of `main.http_exception_handler`: wrap the exception's status
code and detail in the error envelope (no details object). -/
def http_exception_handler (exc : HTTPExceptionModel) : HttpResponse :=
  { status_code := exc.status_code,
    body := error_response exc.status_code exc.detail none }

/-- Embedding of `main.global_exception_handler`: a 500 response whose
envelope carries the message `"Internal Server Errorddddd"` and a details
object holding the full traceback text (`tb` stands for the
`traceback.format_exc()` string of the unhandled exception). -/
def global_exception_handler (tb : String) : HttpResponse :=
  { status_code := 500,
    body := error_response 500 "Internal Server Errorddddd"
      (some ("\x7b\"traceback\": \"" ++ tb ++ "\"\x7d")) }

/-- Embedding of the `GET /me` handler `endpoints.get_current_user_info`:
look the decoded username up; 404 when absent, otherwise the success
envelope with the row's username and `is_authenticated: true`. -/
def get_current_user_info (db : DB) (current_user : TokenData) : HttpResponse :=
  match get_user db current_user.username with
  | none =>
    http_exception_handler { status_code := 404, detail := "User not found" }
  | some user =>
    { status_code := 200,
      body := success_response
        ("\x7b\"username\": \"" ++ user.username ++
          "\", \"is_authenticated\": true\x7d") }

/-- Embedding of the `POST /logout` handler `endpoints.logout`: it takes no
database handle at all and unconditionally returns the success envelope. -/
def logout (current_user : TokenData) : HttpResponse :=
  { status_code := 200,
    body := success_response
      ("\x7b\"message\": \"Successfully logged out\", \"username\": \"" ++
        current_user.username ++ "\"\x7d") }

/-- Embedding of the `POST /login` handler `endpoints.login`: authenticate;
on `None` raise `HTTPException(401, "Incorrect username or password")`
(rendered by the HTTP exception handler), propagate a raised exception
likewise, and on success issue a token for the user's username with the
configured ttl and return it in the success envelope. -/
def login (db : DB) (secret : String) (now ttl : Nat)
    (username password : String) : HttpResponse :=
  match authenticate_user db username password with
  | .noUser =>
    http_exception_handler
      { status_code := 401, detail := "Incorrect username or password" }
  | .httpError c d =>
    http_exception_handler { status_code := c, detail := d }
  | .user u =>
    let tok := create_access_token secret now u.username ttl
    { status_code := 200,
      body := success_response
        ("\x7b\"access_token\": \"" ++ encode_jwt tok ++
          "\", \"token_type\": \"bearer\"\x7d") }

/-- Lowercases a string character-wise (for SQL `ilike`). -/
def strLower (s : String) : String := ⟨s.data.map Char.toLower⟩

/-- Embedding of SQL `column ILIKE '%pat%'`: case-insensitive containment. -/
def ilike_contains (text pat : String) : Bool :=
  strSegment (strLower text) (strLower pat)

/-- Embedding of `crud.get_qa_logs`: optional `ilike` filter (note the
Python truthiness test `if search:` — an empty search string applies no
filter), then offset and limit. -/
def crud_get_qa_logs (db : DB) (skip limit : Nat) (search : Option String) :
    List QALogRow :=
  let q := db.qa_logs
  let q :=
    match search with
    | some s => if s.data.isEmpty then q else q.filter (fun r => ilike_contains r.query s)
    | none => q
  (q.drop skip).take limit

/-- Embedding of `crud.get_low_similarity_queries`: optional lower and upper
bounds on the similarity score, then offset and limit. -/
def crud_get_low_similarity_queries (db : DB) (skip limit : Nat)
    (min_score max_score : Option ℚ) : List LowSimilarityRow :=
  let q := db.low_similarity_queries
  let q : List LowSimilarityRow :=
    match min_score with
    | some m => q.filter (fun r => decide (m ≤ r.similarity_score))
    | none => q
  let q : List LowSimilarityRow :=
    match max_score with
    | some m => q.filter (fun r => decide (r.similarity_score ≤ m))
    | none => q
  (q.drop skip).take limit

/-- One grouped row of the feedback summary query. -/
structure FeedbackSummaryRow where
  query : String
  satisfied_count : Nat
  unsatisfied_count : Nat
  total_count : Nat
  deriving Repr, DecidableEq

/-- The inner join of `qa_logs` with `feedback` on
`QALogs.task_id == Feedback.message_id`. -/
def feedback_join (db : DB) : List (QALogRow × FeedbackRow) :=
  db.qa_logs.flatMap (fun q =>
    (db.feedback.filter (fun f => q.task_id == f.message_id)).map (fun f => (q, f)))

/-- The distinct group keys (`QALogs.query`) of the joined rows, in first
appearance order. -/
def distinct_queries (rows : List (QALogRow × FeedbackRow)) : List String :=
  rows.foldl (fun acc r => if acc.contains r.1.query then acc else acc ++ [r.1.query]) []

/-- The aggregated row of one group: filtered counts of liked and disliked
feedback and the total join count. -/
def feedback_group (rows : List (QALogRow × FeedbackRow)) (q : String) :
    FeedbackSummaryRow :=
  let grp := rows.filter (fun r => r.1.query == q)
  { query := q,
    satisfied_count := grp.countP (fun r => r.2.liked),
    unsatisfied_count := grp.countP (fun r => !r.2.liked),
    total_count := grp.length }

/-- Embedding of `crud.get_feedback_summary`: join, group by query,
aggregate, order by `unsatisfied_count` descending, limit. -/
def get_feedback_summary (db : DB) (limit : Nat) : List FeedbackSummaryRow :=
  let rows := feedback_join db
  (((distinct_queries rows).map (feedback_group rows)).mergeSort
      (fun a b => decide (b.unsatisfied_count ≤ a.unsatisfied_count))).take limit

/-- One grouped row of the no-result summary query. -/
structure NoResultSummaryRow where
  query : String
  count : Nat
  deriving Repr, DecidableEq

/-- The distinct group keys (`NoResultLogs.query`), in first appearance order. -/
def distinct_no_result_queries (rows : List NoResultLogRow) : List String :=
  rows.foldl (fun acc (r : NoResultLogRow) =>
    if acc.contains r.query then acc else acc ++ [r.query]) []

/-- Embedding of `crud.get_no_result_summary`: group by query, count rows
per group, order by `count` descending, limit. -/
def get_no_result_summary (db : DB) (limit : Nat) : List NoResultSummaryRow :=
  let rows := db.no_result_logs
  (((distinct_no_result_queries rows).map (fun q =>
      { query := q, count := rows.countP (fun (r : NoResultLogRow) => r.query == q) :
        NoResultSummaryRow })).mergeSort
      (fun a b => decide (b.count ≤ a.count))).take limit

/-- Outcome of a listing endpoint: a raised `HTTPException` (status and
detail) or the value returned by the crud query it delegates to. -/
inductive EndpointResult (α : Type) where
  | http_error (status_code : Nat) (detail : String)
  | ok (value : α)
  deriving Repr, DecidableEq

/-- Embedding of the `GET /qa-logs` handler: parameter validation in source
order, then delegation to `crud.get_qa_logs`.  The authenticated
`TokenData` is received but never consulted. -/
def get_qa_logs_endpoint (db : DB) (skip limit : Int) (search : Option String)
    (_current_user : TokenData) : EndpointResult (List QALogRow) :=
  if skip < 0 then .http_error 400 "Skip value cannot be negative"
  else if limit < 1 ∨ limit > 100 then
    .http_error 400 "Limit must be between 1 and 100"
  else .ok (crud_get_qa_logs db skip.toNat limit.toNat search)

/-- The Python test `score is not None and (score < 0 or score > 1)`. -/
def score_out_of_range (s : Option ℚ) : Bool :=
  match s with
  | some m => decide (m < 0) || decide (1 < m)
  | none => false

/-- The Python test
`min_score is not None and max_score is not None and min_score > max_score`. -/
def min_gt_max (min_score max_score : Option ℚ) : Bool :=
  match min_score, max_score with
  | some a, some b => decide (b < a)
  | _, _ => false

/-- Embedding of the `GET /low-similarity` handler: the five validation
checks in source order, then delegation to
`crud.get_low_similarity_queries`. -/
def get_low_similarity_queries_endpoint (db : DB) (skip limit : Int)
    (min_score max_score : Option ℚ) : EndpointResult (List LowSimilarityRow) :=
  if skip < 0 then .http_error 400 "Skip value cannot be negative"
  else if limit < 1 ∨ limit > 100 then
    .http_error 400 "Limit must be between 1 and 100"
  else if score_out_of_range min_score then
    .http_error 400 "Minimum score must be between 0 and 1"
  else if score_out_of_range max_score then
    .http_error 400 "Maximum score must be between 0 and 1"
  else if min_gt_max min_score max_score then
    .http_error 400 "Minimum score cannot be greater than maximum score"
  else
    .ok (crud_get_low_similarity_queries db skip.toNat limit.toNat min_score max_score)

/-- Fixture: a user whose stored hash is the (idealized) bcrypt hash of
`"hunter2"`. -/
def user_alice : UserRow :=
  { id := 1, username := "alice", password := "$2b$12$hunter2" }

/-- Fixture: a user whose stored password value is not a bcrypt hash. -/
def user_bob : UserRow :=
  { id := 2, username := "bob", password := "plaintext-oops" }

/-- Fixture: store holding the two fixture users and empty log tables. -/
def db_main : DB :=
  { users := [user_alice, user_bob], feedback := [], qa_logs := [],
    low_similarity_queries := [], no_result_logs := [] }

/-- Fixture: the empty store. -/
def db_empty : DB :=
  { users := [], feedback := [], qa_logs := [],
    low_similarity_queries := [], no_result_logs := [] }

/-- Inversion for a successful idealized bcrypt comparison: it demands the
header and pins the stored hash to the hash of the supplied password. -/
theorem bcrypt_checkpw_ok_true_iff (password h : String) :
    bcrypt_checkpw password h = .ok true ↔
      strStarts h bcryptHeader = true ∧ h = bcryptHeader ++ password := by
  unfold bcrypt_checkpw bcrypt_hashpw
  by_cases hs : strStarts h bcryptHeader
  · simp [hs]
  · simp [hs]

/-- The idealized bcrypt hash is injective in the password. -/
theorem bcrypt_hash_inj {p q : String}
    (h : bcryptHeader ++ p = bcryptHeader ++ q) : p = q := by
  have hd := congrArg String.data h
  simp [String.data_append] at hd
  exact String.ext hd

/-- C1: `authenticate_user` returns the stored user exactly when a row with
that exact username exists and the bcrypt comparison of the supplied
password against the (stripped) stored hash succeeds; an absent username or
a failed comparison yields no user, and any password differing from a
matching one (in particular any single-character mutation of it) yields no
user. -/
theorem authenticate_user_spec :
    ∀ (db : DB) (username password : String),
      (∀ u : UserRow,
        authenticate_user db username password = .user u ↔
          get_user db username = some u ∧
            bcrypt_checkpw password (pyStrip u.password) = .ok true) ∧
      (get_user db username = none →
        authenticate_user db username password = .noUser) ∧
      (∀ u : UserRow, get_user db username = some u →
        bcrypt_checkpw password (pyStrip u.password) = .ok false →
        authenticate_user db username password = .noUser) ∧
      (∀ (u : UserRow) (p' : String), get_user db username = some u →
        bcrypt_checkpw password (pyStrip u.password) = .ok true →
        p' ≠ password →
        authenticate_user db username p' = .noUser) := by
  intro db username password
  refine ⟨?_, ?_, ?_, ?_⟩
  · intro u
    constructor
    · intro h
      cases hgu : get_user db username with
      | none => simp [authenticate_user, hgu] at h
      | some v =>
        cases hcp : bcrypt_checkpw password (pyStrip v.password) with
        | ok b =>
          cases b with
          | true =>
            simp [authenticate_user, hgu, hcp] at h
            subst h
            exact ⟨rfl, hcp⟩
          | false => simp [authenticate_user, hgu, hcp] at h
        | error e => simp [authenticate_user, hgu, hcp] at h
    · rintro ⟨hgu, hcp⟩
      simp [authenticate_user, hgu, hcp]
  · intro h
    simp [authenticate_user, h]
  · intro u hgu hcp
    simp [authenticate_user, hgu, hcp]
  · intro u p' hgu hok hne
    obtain ⟨hstart, hpin⟩ := (bcrypt_checkpw_ok_true_iff password (pyStrip u.password)).mp hok
    have hcp' : bcrypt_checkpw p' (pyStrip u.password) = .ok false := by
      unfold bcrypt_checkpw bcrypt_hashpw
      rw [if_pos hstart]
      have hne' : pyStrip u.password ≠ bcryptHeader ++ p' := by
        rw [hpin]
        intro hcontra
        exact hne (bcrypt_hash_inj hcontra).symm
      simp [hne']
    simp [authenticate_user, hgu, hcp']

/-- Witness for C1 on the fixture store: the matching password returns
alice's row, an unknown username returns no user, and a one-character
mutation of the matching password returns no user. -/
theorem authenticate_user_spec_witness :
    authenticate_user db_main "alice" "hunter2" = .user user_alice ∧
    authenticate_user db_main "carol" "hunter2" = .noUser ∧
    authenticate_user db_main "alice" "hunter3" = .noUser := by
  refine ⟨?_, ?_, ?_⟩
  · exact ((authenticate_user_spec db_main "alice" "hunter2").1 user_alice).mpr
      ⟨by decide, by decide⟩
  · exact (authenticate_user_spec db_main "carol" "hunter2").2.1 (by decide)
  · exact (authenticate_user_spec db_main "alice" "hunter2").2.2.2 user_alice "hunter3"
      (by decide) (by decide) (by decide)

/-- C2: verifying a token freshly issued for a subject with positive ttl,
before its expiry instant and under the same secret, succeeds and returns
exactly that subject. -/
theorem verify_issue_round_trip :
    ∀ (secret sub : String) (now ttl checkTime : Nat),
      0 < ttl → checkTime < now + ttl →
      verify_token secret checkTime (create_access_token secret now sub ttl) =
        .ok sub := by
  intro secret sub now ttl checkTime _httl hlt
  unfold verify_token create_access_token
  have hexp : ¬(now + ttl ≤ checkTime) := by omega
  simp [hexp]

/-- Witness for C2: a token for "alice" issued at time 100 with ttl 50
verifies to "alice" at time 120 under the issuing secret. -/
theorem verify_issue_round_trip_witness :
    verify_token "server-secret" 120
      (create_access_token "server-secret" 100 "alice" 50) = .ok "alice" :=
  verify_issue_round_trip "server-secret" "alice" 100 50 120 (by decide) (by decide)

/-- C3: whenever login authentication fails — for the unknown-username
sub-case or the wrong-password sub-case — the response is status 401 with
the fixed message "Incorrect username or password" in the error envelope;
both sub-cases produce this same literal response, hence byte-identical
bodies. -/
theorem login_failure_uniform_401 :
    ∀ (db : DB) (secret : String) (now ttl : Nat) (username password : String),
      (get_user db username = none ∨
        ∃ u, get_user db username = some u ∧
          bcrypt_checkpw password (pyStrip u.password) = .ok false) →
      login db secret now ttl username password =
        { status_code := 401,
          body := error_response 401 "Incorrect username or password" none } := by
  intro db secret now ttl username password h
  have hnu : authenticate_user db username password = .noUser := by
    rcases h with h | ⟨u, hu, hcp⟩
    · simp [authenticate_user, h]
    · simp [authenticate_user, hu, hcp]
  simp [login, hnu, http_exception_handler]

/-- Witness for C3: on the fixture store, the unknown-username request and
the wrong-password request yield the same concrete 401 envelope. -/
theorem login_failure_uniform_401_witness :
    login db_main "server-secret" 0 60 "carol" "whatever" =
      { status_code := 401,
        body := error_response 401 "Incorrect username or password" none } ∧
    login db_main "server-secret" 0 60 "alice" "hunter3" =
      { status_code := 401,
        body := error_response 401 "Incorrect username or password" none } :=
  ⟨login_failure_uniform_401 db_main "server-secret" 0 60 "carol" "whatever"
      (Or.inl (by decide)),
   login_failure_uniform_401 db_main "server-secret" 0 60 "alice" "hunter3"
      (Or.inr ⟨user_alice, by decide, by decide⟩)⟩

/-- C4 counterexample: with subject "ghost" and the empty store — so the
decoded user no longer exists — the POST /logout handler returns 200 with
the success envelope instead of failing with "not found"; the handler does
not consult the store at all, refuting the claim that every protected
endpoint resolves the subject into a User row before doing other work. -/
theorem logout_skips_user_resolution :
    get_user db_empty "ghost" = none ∧
    logout { username := "ghost" } =
      { status_code := 200,
        body := success_response
          "\x7b\"message\": \"Successfully logged out\", \"username\": \"ghost\"\x7d" } :=
  ⟨by decide, by decide⟩

/-- C4 (amended): only GET /me resolves the decoded subject into a User row
(404 when the user no longer exists); POST /logout always returns 200 for a
verified token, and the listing endpoints compute their result without any
user-existence lookup (their output is independent of the authenticated
identity). -/
theorem protected_endpoints_user_resolution :
    ∀ (db : DB) (td : TokenData),
      (get_user db td.username = none →
        (get_current_user_info db td).status_code = 404) ∧
      (logout td).status_code = 200 ∧
      (∀ (skip limit : Int) (search : Option String) (other : TokenData),
        get_qa_logs_endpoint db skip limit search td =
          get_qa_logs_endpoint db skip limit search other) := by
  intro db td
  refine ⟨?_, rfl, fun _ _ _ _ => rfl⟩
  intro h
  simp [get_current_user_info, h, http_exception_handler]

/-- Witness for the amended C4: /me for the absent subject "ghost" on the
empty store responds 404. -/
theorem protected_endpoints_user_resolution_witness :
    (get_current_user_info db_empty { username := "ghost" }).status_code = 404 :=
  (protected_endpoints_user_resolution db_empty { username := "ghost" }).1 (by decide)

/-- C5: for a request whose token decoded to `td`, GET /me responds 200
with the success envelope carrying the decoded username and
`is_authenticated: true` when the user row exists, and 404 when it no
longer exists. -/
theorem me_endpoint_spec :
    ∀ (db : DB) (td : TokenData),
      (∀ u, get_user db td.username = some u →
        get_current_user_info db td =
          { status_code := 200,
            body := success_response
              ("\x7b\"username\": \"" ++ td.username ++
                "\", \"is_authenticated\": true\x7d") }) ∧
      (get_user db td.username = none →
        (get_current_user_info db td).status_code = 404) := by
  intro db td
  constructor
  · intro u hu
    have hu' : List.find? (fun v => v.username == td.username) db.users = some u := hu
    have hp := List.find?_some hu'
    have huser : u.username = td.username := eq_of_beq hp
    simp [get_current_user_info, hu, huser]
  · intro h
    simp [get_current_user_info, h, http_exception_handler]

/-- Witness for C5: alice's /me request on the fixture store gives the 200
envelope; the same request on the empty store gives 404. -/
theorem me_endpoint_spec_witness :
    get_current_user_info db_main { username := "alice" } =
      { status_code := 200,
        body := success_response
          ("\x7b\"username\": \"" ++ "alice" ++
            "\", \"is_authenticated\": true\x7d") } ∧
    (get_current_user_info db_empty { username := "alice" }).status_code = 404 :=
  ⟨(me_endpoint_spec db_main { username := "alice" }).1 user_alice (by decide),
   (me_endpoint_spec db_empty { username := "alice" }).2 (by decide)⟩

/-- C6: when the user row exists but the stored hash is malformed so that
the bcrypt comparison raises, `authenticate_user` surfaces the internal
500 error ("Authentication error", via the outer exception handler) and in
particular does not return the `None` that the login boundary would turn
into the generic 401. -/
theorem malformed_hash_internal_error :
    ∀ (db : DB) (username password : String) (u : UserRow),
      get_user db username = some u →
      bcrypt_checkpw password (pyStrip u.password) = .error .invalid_salt →
      authenticate_user db username password =
        .httpError 500 "Authentication error" ∧
      authenticate_user db username password ≠ .noUser := by
  intro db username password u hu hcp
  have h : authenticate_user db username password =
      .httpError 500 "Authentication error" := by
    simp [authenticate_user, hu, hcp]
  exact ⟨h, by rw [h]; simp⟩

/-- Witness for C6: bob's stored credential is not a bcrypt hash, and
authenticating as bob yields the 500 outcome. -/
theorem malformed_hash_internal_error_witness :
    authenticate_user db_main "bob" "anything" =
      .httpError 500 "Authentication error" :=
  (malformed_hash_internal_error db_main "bob" "anything" user_bob
    (by decide) (by decide)).1

/-- C7: at the concrete unexpected error whose formatted traceback is
"TRACE_XYZ", the 500 response body of the global exception handler
contains that diagnostic text (under a "traceback" details key), so the
body does not consist of a generic message only — the defect the spec
says a hardened reimplementation must not replicate. -/
theorem global_handler_body_has_traceback :
    (global_exception_handler "TRACE_XYZ").status_code = 500 ∧
    strSegment (global_exception_handler "TRACE_XYZ").body "TRACE_XYZ" = true ∧
    strSegment (global_exception_handler "TRACE_XYZ").body "traceback" = true :=
  ⟨rfl, by decide, by decide⟩

/-- C8: at a concrete successful authentication attempt, the log output of
the credential-verification path contains an entry carrying the submitted
plaintext password together with a hash freshly recomputed from it — the
credential leakage the spec says must not be reproduced. -/
theorem auth_log_contains_plaintext_password :
    LogEntry.debug_password "hunter2" (bcrypt_hashpw "hunter2" "salt1") ∈
      authenticate_user_log db_main "alice" "hunter2" "salt1" := by
  decide

/-- The score range check passes exactly when any provided bound lies in
the closed interval from 0 to 1. -/
theorem score_out_of_range_false_iff (s : Option ℚ) :
    score_out_of_range s = false ↔ ∀ m, s = some m → 0 ≤ m ∧ m ≤ 1 := by
  cases s with
  | none => simp [score_out_of_range]
  | some m => simp [score_out_of_range, not_lt]

/-- The bound-ordering check passes exactly when the lower bound is at most
the upper bound whenever both are provided. -/
theorem min_gt_max_false_iff (a b : Option ℚ) :
    min_gt_max a b = false ↔ ∀ x y, a = some x → b = some y → x ≤ y := by
  cases a <;> cases b <;> simp [min_gt_max, not_lt]

/-- C9: the GET /low-similarity handler delegates to
`crud.get_low_similarity_queries` exactly when the limit lies between 1 and
100, the skip is nonnegative, every provided score bound lies between 0 and
1, and the lower bound is at most the upper bound whenever both are
provided; every violation is answered with a 400 error and the query
function is not invoked. -/
theorem low_similarity_param_validation :
    ∀ (db : DB) (skip limit : Int) (minS maxS : Option ℚ),
      ((∃ rows, get_low_similarity_queries_endpoint db skip limit minS maxS =
          .ok rows) ↔
        (0 ≤ skip ∧ 1 ≤ limit ∧ limit ≤ 100 ∧
          (∀ m, minS = some m → 0 ≤ m ∧ m ≤ 1) ∧
          (∀ m, maxS = some m → 0 ≤ m ∧ m ≤ 1) ∧
          (∀ a b, minS = some a → maxS = some b → a ≤ b))) ∧
      (∀ rows, get_low_similarity_queries_endpoint db skip limit minS maxS =
          .ok rows →
        rows = crud_get_low_similarity_queries db skip.toNat limit.toNat minS maxS) ∧
      (∀ c d, get_low_similarity_queries_endpoint db skip limit minS maxS =
          .http_error c d →
        c = 400) := by
  intro db skip limit minS maxS
  unfold get_low_similarity_queries_endpoint
  split_ifs with h1 h2 h3 h4 h5
  · refine ⟨⟨fun hex => ?_, fun hR => ?_⟩, fun rows hr => ?_, fun c d h => ?_⟩
    · obtain ⟨rows, hr⟩ := hex; simp at hr
    · exact ((by omega : ¬(0 ≤ skip)) hR.1).elim
    · simp at hr
    · injection h with hc _; exact hc.symm
  · refine ⟨⟨fun hex => ?_, fun hR => ?_⟩, fun rows hr => ?_, fun c d h => ?_⟩
    · obtain ⟨rows, hr⟩ := hex; simp at hr
    · obtain ⟨-, hl1, hl100, -⟩ := hR
      exact ((by omega : ¬(limit < 1 ∨ limit > 100)) h2).elim
    · simp at hr
    · injection h with hc _; exact hc.symm
  · refine ⟨⟨fun hex => ?_, fun hR => ?_⟩, fun rows hr => ?_, fun c d h => ?_⟩
    · obtain ⟨rows, hr⟩ := hex; simp at hr
    · have := (score_out_of_range_false_iff minS).mpr hR.2.2.2.1
      simp [h3] at this
    · simp at hr
    · injection h with hc _; exact hc.symm
  · refine ⟨⟨fun hex => ?_, fun hR => ?_⟩, fun rows hr => ?_, fun c d h => ?_⟩
    · obtain ⟨rows, hr⟩ := hex; simp at hr
    · have := (score_out_of_range_false_iff maxS).mpr hR.2.2.2.2.1
      simp [h4] at this
    · simp at hr
    · injection h with hc _; exact hc.symm
  · refine ⟨⟨fun hex => ?_, fun hR => ?_⟩, fun rows hr => ?_, fun c d h => ?_⟩
    · obtain ⟨rows, hr⟩ := hex; simp at hr
    · have := (min_gt_max_false_iff minS maxS).mpr hR.2.2.2.2.2
      simp [h5] at this
    · simp at hr
    · injection h with hc _; exact hc.symm
  · have h3' : score_out_of_range minS = false := by
      revert h3; cases score_out_of_range minS <;> simp
    have h4' : score_out_of_range maxS = false := by
      revert h4; cases score_out_of_range maxS <;> simp
    have h5' : min_gt_max minS maxS = false := by
      revert h5; cases min_gt_max minS maxS <;> simp
    refine ⟨⟨fun _ => ?_, fun _ => ⟨_, rfl⟩⟩, fun rows hr => ?_, fun c d h => ?_⟩
    · exact ⟨by omega, by omega, by omega,
        (score_out_of_range_false_iff minS).mp h3',
        (score_out_of_range_false_iff maxS).mp h4',
        (min_gt_max_false_iff minS maxS).mp h5'⟩
    · injection hr with h'; exact h'.symm
    · simp at h

/-- Witness for C9: valid parameters on the empty store reach the crud
query (and return its empty result). -/
theorem low_similarity_param_validation_witness :
    ∃ rows, get_low_similarity_queries_endpoint db_empty 0 10 none none = .ok rows :=
  (low_similarity_param_validation db_empty 0 10 none none).1.mpr
    ⟨by decide, by decide, by decide,
     fun _ h => Option.noConfusion h,
     fun _ h => Option.noConfusion h,
     fun _ _ h _ => Option.noConfusion h⟩

/-- C10: for every store and limit, the feedback summary has at most
`limit` rows and is sorted by `unsatisfied_count` in non-increasing order,
and the no-result summary has at most `limit` rows and is sorted by
`count` in non-increasing order. -/
theorem summaries_bounded_and_sorted :
    ∀ (db : DB) (limit : Nat),
      (get_feedback_summary db limit).length ≤ limit ∧
      List.Pairwise (fun a b => b.unsatisfied_count ≤ a.unsatisfied_count)
        (get_feedback_summary db limit) ∧
      (get_no_result_summary db limit).length ≤ limit ∧
      List.Pairwise (fun a b => b.count ≤ a.count)
        (get_no_result_summary db limit) := by
  intro db limit
  have sortKey : ∀ {α : Type} (key : α → Nat) (l : List α),
      List.Pairwise (fun a b => key b ≤ key a)
        (l.mergeSort (fun a b => decide (key b ≤ key a))) := by
    intro α key l
    have h := @List.sorted_mergeSort α (fun a b => decide (key b ≤ key a))
      (fun a b c hab hbc => by
        simp only [decide_eq_true_iff] at hab hbc ⊢
        exact le_trans hbc hab)
      (fun a b => by
        rcases Nat.le_total (key a) (key b) with h | h <;> simp [h])
      l
    exact h.imp (fun hab => by simpa using hab)
  refine ⟨?_, ?_, ?_, ?_⟩
  · unfold get_feedback_summary
    simp [List.length_take]
  · unfold get_feedback_summary
    exact List.Pairwise.sublist (List.take_sublist _ _)
      (sortKey (fun r : FeedbackSummaryRow => r.unsatisfied_count) _)
  · unfold get_no_result_summary
    simp [List.length_take]
  · unfold get_no_result_summary
    exact List.Pairwise.sublist (List.take_sublist _ _)
      (sortKey (fun r : NoResultSummaryRow => r.count) _)

end FlexrFeedback
